import Mathlib

/-!
Verification development for the claude-session-continuity hook scripts
(`claude-hooks/post_prompt_submit.py`, `session_end.py`, `session_start.py`,
`pre_prompt_submit.py`).

Shallow embedding conventions:
* The SQLite store is modelled as lists of rows in insertion (rowid) order;
  `datetime` values are modelled as `Int` seconds, and SQLite's
  `created_at > datetime('now','-24 hours')` becomes `now - 86400 < created_at`.
* `hashlib.md5(...).hexdigest()` is an external library call and is modelled as
  an oracle parameter `md5hex : String → String`; the scripts only ever use it
  as a deterministic function of the normalized text.
* Python's `re.search` / `re.match` on the large conversational pattern tables
  is modelled as oracle parameters `rs` / `rm : String → String → Bool`
  (pattern, text).  The small commit-path pattern table of `session_end.py`
  only uses literal patterns plus a single `.+` wildcard, and for it a concrete
  matcher `reSearch` is implemented below.
* Python `x in s` (substring) is `strContains`; SQLite `LIKE '%p%'` is
  ASCII-case-insensitive and becomes `likeContains`.
* `str.lower()` is `pyLower` (ASCII case folding, the identity on the Korean
  and Japanese characters appearing in the tables).
-/

/-- Python `needle in hay` substring test. -/
def strContains (needle hay : String) : Bool := decide (needle.data <:+: hay.data)

/-- Python `str.lower()` (ASCII folding; identity on the CJK characters used here). -/
def pyLower (s : String) : String := String.mk (s.data.map Char.toLower)

/-- SQLite `content LIKE '%' || pat || '%'` (ASCII case-insensitive; the patterns
used by the scripts are bracketed lowercase hex digests with no LIKE wildcards). -/
def likeContains (pat s : String) : Bool := strContains (pyLower pat) (pyLower s)

/-- Python `l[-n:]`: the last `n` elements. -/
def lastN (n : Nat) (l : List α) : List α := l.drop (l.length - n)

/-- Python `s.split(sep)` for a nonempty separator, on character lists.  The
`fuel` argument (instantiated with more than the list length) only makes the
recursion structural; every step consumes at least one character. -/
def pySplitGo (sep : List Char) (fuel : Nat) (acc : List Char) (l : List Char) :
    List (List Char) :=
  match fuel with
  | 0 => [acc.reverse ++ l]
  | fuel + 1 =>
    match l with
    | [] => [acc.reverse]
    | c :: cs =>
      if sep.isPrefixOf (c :: cs) then
        acc.reverse :: pySplitGo sep fuel [] ((c :: cs).drop sep.length)
      else pySplitGo sep fuel (c :: acc) cs

/-- Python `s.split(sep)` for a nonempty separator. -/
def pySplit (sep s : String) : List String :=
  (pySplitGo sep.data (s.data.length + 1) [] s.data).map String.mk

/-- Python `re.sub(r'\s+', ' ', ·)` on a character list: collapse every run of
whitespace to a single space.  `inRun` records whether the previous character
was part of a whitespace run already emitted as `' '`. -/
def collapseWSGo (inRun : Bool) : List Char → List Char
  | [] => []
  | c :: cs =>
    if c.isWhitespace then
      if inRun then collapseWSGo true cs else ' ' :: collapseWSGo true cs
    else c :: collapseWSGo false cs

def collapseWS (l : List Char) : List Char := collapseWSGo false l

/-- `compute_content_hash`'s normalisation (post_prompt_submit.py:382):
`re.sub(r'\s+', ' ', content.lower().strip())`. -/
def normalizeContent (content : String) : String :=
  String.mk (collapseWS ((pyLower content).trim.data))

/-- Stable insertion sort: `stableSortBy before l` orders `l` so that `x` is
placed in front of `y` only when `before x y`; elements neither of which is
strictly before the other keep their original relative order.  Models the
deterministic row order of an SQLite `ORDER BY` (ties in rowid order) and
Python's stable `sort`. -/
def stableInsertBy (before : α → α → Bool) (x : α) : List α → List α
  | [] => [x]
  | y :: ys => if before y x then y :: stableInsertBy before x ys else x :: y :: ys

def stableSortBy (before : α → α → Bool) : List α → List α
  | [] => []
  | x :: xs => stableInsertBy before x (stableSortBy before xs)

/-- Keep the first row for each memory id (session_start.py `deduplicate_memories`
and the `seen_ids` loops). -/
def dedupByIdGo (seen : List Nat) (getId : α → Nat) : List α → List α
  | [] => []
  | x :: xs =>
    if getId x ∈ seen then dedupByIdGo seen getId xs
    else x :: dedupByIdGo (getId x :: seen) getId xs

def dedupById (getId : α → Nat) (l : List α) : List α := dedupByIdGo [] getId l

/-- A row of the `memories` table. -/
structure MemoryRow where
  id : Nat
  content : String
  memory_type : String
  tags : Option (List String)
  project : String
  importance : Int
  created_at : Int
  accessed_at : Option Int
deriving Repr, DecidableEq

/-- A row of the `sessions` table. -/
structure SessionRow where
  project : String
  last_work : String
  current_status : Option String
  modified_files : Option (List String)
  timestamp : Int
deriving Repr, DecidableEq

/-- A row of the `active_context` table (`project` is the primary key). -/
structure ActiveContextRow where
  project : String
  current_state : String
  recent_files : Option (List String)
  updated_at : Int
deriving Repr, DecidableEq

/-- A row of the `embeddings_v4` table with `entity_type = 'memory'`
(the only entity type the hooks read); the blob is already decoded to
its float list. -/
structure EmbeddingRow where
  entity_id : Nat
  embedding : List ℚ
deriving Repr, DecidableEq

/-- The SQLite store at `.claude/sessions.db`.  `nextId` models rowid
assignment for `memories` inserts (`cursor.lastrowid`). -/
structure Store where
  memories : List MemoryRow
  sessions : List SessionRow
  active_context : List ActiveContextRow
  embeddings : List EmbeddingRow
  nextId : Nat
deriving Repr, DecidableEq

/-- `INSERT OR REPLACE INTO active_context` (primary key `project`). -/
def upsertActive (l : List ActiveContextRow) (row : ActiveContextRow) : List ActiveContextRow :=
  (l.filter (fun r => r.project ≠ row.project)) ++ [row]

namespace PostPrompt

/-! ## post_prompt_submit.py -/

/-- `USER_OVERRIDES['remember']` (post_prompt_submit.py:218). -/
def USER_OVERRIDES_remember : List String :=
  ["#remember", "@remember", "#기억", "#저장", "#메모", "#覚える", "#保存", "#メモ"]

/-- `USER_OVERRIDES['skip']` (post_prompt_submit.py:223). -/
def USER_OVERRIDES_skip : List String :=
  ["#skip", "@skip", "#스킵", "#무시", "#패스", "#スキップ", "#無視", "#パス"]

/-- `check_user_override` (post_prompt_submit.py:278): returns
`(force_remember, force_skip)`; the skip loop runs first. -/
def check_user_override (content : String) : Bool × Bool :=
  let cl := pyLower content
  if USER_OVERRIDES_skip.any (fun m => strContains m cl) then (false, true)
  else if USER_OVERRIDES_remember.any (fun m => strContains m cl) then (true, false)
  else (false, false)

/-- `SKIP_PATTERNS` (post_prompt_submit.py:231), kept verbatim as regex source
strings; they are only ever passed to the `re.match` oracle. -/
def SKIP_PATTERNS : List String :=
  ["^(hi|hello|hey|thanks|thank you|ok|okay|yes|no|sure|cool|nice|good|great)[\\s!.]*$",
   "^(안녕|감사|네|예|응|아니|ㅇㅇ|ㅋㅋ|ㅎㅎ|ㄱㄱ|ㅇㅋ|굿|좋아|알겠|오키)[\\s!.]*$",
   "^(はい|いいえ|ありがとう|おはよう|こんにちは|了解|OK|うん|ええ)[\\s!.]*$",
   "^.\x7b0,20\x7d$",
   "^\\s*$",
   "^(뭐|뭐야|왜|어떻게|언제|어디|누가)\\?*$",
   "^(what|why|how|when|where|who)\\?*$",
   "^(何|なぜ|どう|いつ|どこ|誰)\\?*$"]

/-- `should_skip_content` (post_prompt_submit.py:293); `rm` is the
`re.match(·, ·, IGNORECASE)` oracle. -/
def should_skip_content (rm : String → String → Bool) (content : String) : Bool :=
  SKIP_PATTERNS.any (fun p => rm p content.trim)

/-- One entry of `MEMORY_PATTERNS`: priority, confidence, minimum length and
the regex source strings. -/
structure PatternConfig where
  priority : Nat
  confidence : ℚ
  min_length : Nat
  patterns : List String
deriving Repr, DecidableEq

/-- The dictionary returned by `detect_memory_type` on success. -/
structure Detection where
  type : String
  confidence : ℚ
  priority : Nat
  pattern_matched : String
deriving Repr, DecidableEq

def decision_patterns : List String :=
  ["\\b(decided|chose|will use|going with|selected|picked|opted for)\\b",
   "\\b(architecture|design decision|approach|strategy)\\b.*\\b(is|will be|should be)\\b",
   "\\b(instead of|rather than|over)\\b.*\\b(because|since|as)\\b",
   "\\b(we\x27ll go with|let\x27s use|the plan is|we should)\\b",
   "\\b(final decision|agreed on|settled on|committed to)\\b",
   "\\b(prefer|better to|best option|recommended approach)\\b",
   "\\b(trade-?off|pros and cons|considered|evaluated)\\b",
   "(결정|선택|채택|정했|하기로|으로 가|방식으로)",
   "(아키텍처|설계|구조).*?(으로|를|이)",
   "(대신|말고).*?(이유|때문)",
   "(으로 하자|으로 갈게|이걸로|로 정함)",
   "(최종|확정|합의|동의)",
   "(트레이드오프|장단점|고려|검토).*?(결과|후)",
   "(더 낫|최선|권장|추천).*?(방법|방식)",
   "(왜냐하면|그래서|따라서).*?(선택|결정)",
   "(決定|選択|採用|決めた|することに|方針)",
   "(アーキテクチャ|設計|構造).*?(に|を|が)",
   "(代わりに|ではなく).*?(理由|ため)",
   "(にしよう|を使う|で行く|に決定)",
   "(最終|確定|合意|同意)",
   "(トレードオフ|長所短所|検討|評価)"]

def error_patterns : List String :=
  ["\\b(error|exception|bug|issue|problem|crash|fail)\\b.*\\b(fixed|solved|resolved|caused by)\\b",
   "\\b(fixed|solved|resolved)\\b.*\\b(by|with|using)\\b",
   "\\b(the issue was|the problem was|root cause)\\b",
   "\\b(debugging|debugged|traced|tracked down)\\b",
   "\\b(workaround|hotfix|patch|fix for)\\b",
   "\\b(stack trace|error message|exception thrown)\\b",
   "\\b(breaks|broken|breaking|doesn\x27t work|not working)\\b",
   "\\b(null pointer|undefined|type error|runtime error)\\b",
   "(에러|오류|버그|문제|이슈).*?(해결|수정|고침|원인)",
   "(해결|수정|고침).*?(방법|했|됨|완료)",
   "(원인|이유).*?(였|이었|때문)",
   "(디버깅|추적|찾았|발견)",
   "(임시방편|핫픽스|패치|수정본)",
   "(스택트레이스|에러메시지|예외)",
   "(안됨|안 됨|작동 안|동작 안|실패)",
   "(널|undefined|타입에러|런타임)",
   "(충돌|크래시|멈춤|뻗음)",
   "(エラー|バグ|問題|イシュー).*?(解決|修正|直した|原因)",
   "(解決|修正|直した).*?(方法|した|完了)",
   "(原因|理由).*?(だった|ため)",
   "(デバッグ|追跡|見つけた|発見)",
   "(動かない|動作しない|失敗|クラッシュ)"]

def learning_patterns : List String :=
  ["\\b(learned|discovered|realized|found out|turns out|TIL)\\b",
   "\\b(didn\x27t know|now I understand|makes sense now)\\b",
   "\\b(the trick is|the key is|important to note)\\b",
   "\\b(aha moment|eureka|finally understood|clicked)\\b",
   "\\b(gotcha|caveat|pitfall|watch out for)\\b",
   "\\b(best practice|pro tip|life saver|game changer)\\b",
   "\\b(documentation says|according to docs|spec says)\\b",
   "\\b(works because|reason is|explanation is)\\b",
   "(배웠|알게|발견|깨달|알아냈)",
   "(몰랐|이해했|이해됨|그렇구나)",
   "(핵심|포인트|중요한 점|팁)",
   "(아하|유레카|드디어|이해됨)",
   "(함정|주의점|실수하기 쉬운)",
   "(베스트 프랙티스|꿀팁|생명의 은인)",
   "(문서에|공식 문서|스펙에|따르면)",
   "(이유는|원리는|작동 원리)",
   "(새로 안|처음 알았|신기하게도)",
   "(이렇게 하면|이런 식으로|방법은)",
   "(学んだ|発見した|気づいた|分かった)",
   "(知らなかった|理解した|なるほど)",
   "(ポイント|コツ|重要な点|ヒント)",
   "(ハマりポイント|落とし穴|注意点)",
   "(ベストプラクティス|プロのコツ)",
   "(ドキュメントによると|仕様では)"]

def implementation_patterns : List String :=
  ["\\b(implemented|created|built|developed|added|refactored)\\b.*\\b(feature|function|component|service)\\b",
   "\\b(now (supports|handles|works with))\\b",
   "\\b(successfully (integrated|deployed|migrated))\\b",
   "\\b(shipped|released|launched|rolled out)\\b",
   "\\b(PR merged|commit pushed|code reviewed)\\b",
   "\\b(completed|finished|done with|wrapped up)\\b",
   "\\b(set up|configured|initialized|bootstrapped)\\b",
   "\\b(connected|hooked up|wired|linked)\\b",
   "(구현|개발|추가|생성|리팩토링).*?(완료|했|됨|끝)",
   "(기능|컴포넌트|서비스).*?(추가|구현|완성)",
   "(통합|배포|마이그레이션).*?(완료|성공)",
   "(출시|릴리즈|배포|런칭)",
   "(PR 머지|커밋|코드리뷰)",
   "(완성|마침|끝냄|마무리)",
   "(설정|구성|초기화|세팅)",
   "(연결|연동|통합|붙임)",
   "(만들었|작성했|코딩했)",
   "(実装|開発|追加|作成|リファクタリング).*?(完了|した|終わり)",
   "(機能|コンポーネント|サービス).*?(追加|実装|完成)",
   "(統合|デプロイ|マイグレーション).*?(完了|成功)",
   "(リリース|公開|ローンチ)",
   "(設定|構成|初期化|セットアップ)",
   "(接続|連携|統合)"]

def important_patterns : List String :=
  ["\\b(important|critical|crucial|essential|must|never|always)\\b",
   "\\b(remember|don\x27t forget|keep in mind|note that)\\b",
   "\\b(warning|caution|be careful|watch out)\\b",
   "\\b(do not|don\x27t ever|avoid|stay away from)\\b",
   "\\b(required|mandatory|necessary|needed)\\b",
   "\\b(breaking change|deprecated|obsolete)\\b",
   "\\b(security|vulnerability|sensitive|confidential)\\b",
   "\\b(deadline|urgent|asap|priority)\\b",
   "(중요|필수|반드시|절대|항상|주의)",
   "(기억|잊지|명심|참고)",
   "(경고|조심|주의사항)",
   "(하지마|하면 안|금지|피해)",
   "(필요|꼭|무조건)",
   "(브레이킹|지원중단|deprecated)",
   "(보안|취약점|민감|기밀)",
   "(마감|긴급|급함|우선순위)",
   "(핵심|필독|꼭 읽어)",
   "(重要|必須|必ず|絶対|常に|注意)",
   "(覚えて|忘れずに|留意|参考)",
   "(警告|注意|気をつけて)",
   "(してはいけない|禁止|避ける)",
   "(必要|絶対に|必ず)",
   "(セキュリティ|脆弱性|機密)",
   "(締め切り|緊急|優先)"]

def code_patterns : List String :=
  ["```[\\s\\S]\x7b100,\x7d```",
   "\\b(function|class|interface|type|const|let|var)\\b.*[\x7b(]",
   "\\b(def |async def |class )\\w+",
   "\\b(import|from|require|export)\\b",
   "\\b(fun |val |var |data class |sealed class)\\b",
   "\\b(Widget |StatelessWidget|StatefulWidget|@override)\\b",
   "\\b(struct |impl |fn |pub |mod )\\b",
   "\\b(func |package |go |chan )\\b"]

/-- `MEMORY_PATTERNS` (post_prompt_submit.py:34), in dict insertion order. -/
def MEMORY_PATTERNS : List (String × PatternConfig) :=
  [("decision", ⟨1, 0.9, 50, decision_patterns⟩),
   ("error", ⟨2, 0.85, 30, error_patterns⟩),
   ("learning", ⟨3, 0.85, 40, learning_patterns⟩),
   ("implementation", ⟨4, 0.8, 60, implementation_patterns⟩),
   ("important", ⟨5, 0.75, 30, important_patterns⟩),
   ("code", ⟨6, 0.7, 200, code_patterns⟩)]

/-- Python's stable `sorted(MEMORY_PATTERNS.items(), key=priority)`
(post_prompt_submit.py:309), as a stable insertion sort. -/
def sorted_types : List (String × PatternConfig) :=
  (MEMORY_PATTERNS).foldr (stableInsertBy (fun y x => y.2.priority ≤ x.2.priority)) []

/-- `detect_memory_type` (post_prompt_submit.py:301); `rm` / `rs` are the
`re.match` / `re.search(·, ·, IGNORECASE | MULTILINE)` oracles. -/
def detect_memory_type (rm rs : String → String → Bool) (content : String) :
    Option Detection :=
  if should_skip_content rm content then none
  else
    sorted_types.findSome? (fun tc =>
      if content.length < tc.2.min_length then none
      else
        tc.2.patterns.findSome? (fun p =>
          if rs p content then
            some ⟨tc.1, tc.2.confidence, tc.2.priority, p.take 50⟩
          else none))

/-- `tech_patterns` of `extract_tags` (post_prompt_submit.py:337), tag → regex
source, in dict insertion order. -/
def tech_patterns : List (String × String) :=
  [("flutter", "\\b(flutter|dart|widget|pubspec|플러터|위젯)\\b"),
   ("react", "\\b(react|jsx|tsx|useState|useEffect|리액트|フック)\\b"),
   ("nextjs", "\\b(next\\.?js|getServerSideProps|app router|넥스트)\\b"),
   ("vue", "\\b(vue|vuex|nuxt|composition api|뷰)\\b"),
   ("angular", "\\b(angular|ng-|앵귤러)\\b"),
   ("svelte", "\\b(svelte|sveltekit|스벨트)\\b"),
   ("python", "\\b(python|pip|django|flask|fastapi|파이썬)\\b"),
   ("typescript", "\\b(typescript|ts|타입스크립트|型)\\b"),
   ("kotlin", "\\b(kotlin|coroutine|코틀린|コトリン)\\b"),
   ("swift", "\\b(swift|swiftui|스위프트)\\b"),
   ("rust", "\\b(rust|cargo|러스트|ラスト)\\b"),
   ("go", "\\b(golang|go mod|고랭)\\b"),
   ("api", "\\b(api|endpoint|rest|graphql|fetch|엔드포인트|API)\\b"),
   ("database", "\\b(database|db|sql|query|mongodb|postgres|데이터베이스|DB|クエリ)\\b"),
   ("auth", "\\b(auth|login|token|jwt|session|oauth|인증|로그인|認証|ログイン)\\b"),
   ("ui", "\\b(ui|ux|design|style|css|layout|디자인|레이아웃|デザイン)\\b"),
   ("test", "\\b(test|spec|jest|pytest|unittest|테스트|テスト)\\b"),
   ("deploy", "\\b(deploy|ci/cd|docker|kubernetes|배포|デプロイ)\\b"),
   ("performance", "\\b(performance|optimization|cache|성능|최적화|パフォーマンス)\\b"),
   ("security", "\\b(security|vulnerability|xss|csrf|보안|취약점|セキュリティ)\\b"),
   ("android", "\\b(android|gradle|안드로이드|アンドロイド)\\b"),
   ("ios", "\\b(ios|xcode|cocoapods|아이폰|iOS)\\b"),
   ("state", "\\b(state|redux|zustand|riverpod|bloc|상태관리|状態)\\b")]

/-- `extract_tags` (post_prompt_submit.py:332).  The source collects matching
tags in a Python `set` and returns `list(tags)[:5]`; the set contents are
modelled in table order (the enumeration order of a `set` is unspecified). -/
def extract_tags (rs : String → String → Bool) (content : String) : List String :=
  ((tech_patterns.filter (fun tp => rs tp.2 content)).map (fun tp => tp.1)).take 5

/-- `compute_content_hash` (post_prompt_submit.py:379):
`hashlib.md5(normalized.encode()).hexdigest()[:16]` with the digest oracle. -/
def compute_content_hash (md5hex : String → String) (content : String) : String :=
  (md5hex (normalizeContent content)).take 16

/-- `is_duplicate` (post_prompt_submit.py:386): any memory of the project whose
content contains the bracketed hash and whose `created_at` is within the last
24 hours. -/
def is_duplicate (store : Store) (project : String) (content_hash : String)
    (now : Int) : Bool :=
  store.memories.any (fun m =>
    m.project == project
      && likeContains ("[" ++ content_hash ++ "]") m.content
      && decide (now - 86400 < m.created_at))

/-- The `memories` row inserted by `save_memory` (post_prompt_submit.py:434):
importance is the clamped, decision/error-boosted confidence, and the stored
content is the (possibly truncated) text prefixed with its bracketed hash. -/
def save_memory_row (md5hex : String → String) (store : Store) (project content : String)
    (detection : Detection) (tags : List String) (now : Int) : MemoryRow :=
  let content_hash := compute_content_hash md5hex content
  let importance0 : Int := min 10 (max 1 (detection.confidence * 10).floor)
  let importance :=
    if detection.type = "decision" ∨ detection.type = "error"
    then min 10 (importance0 + 2) else importance0
  let save_content := if content.length > 2000 then content.take 2000 else content
  { id := store.nextId
    content := "[" ++ content_hash ++ "] " ++ save_content
    memory_type := detection.type
    tags := some (tags ++ ["auto-captured"])
    project := project
    importance := importance
    created_at := now
    accessed_at := none }

/-- `save_memory` (post_prompt_submit.py:402) on an existing database; returns
the new store and `cursor.lastrowid` (or `none` when the duplicate check
refuses the insert). -/
def save_memory (md5hex : String → String) (store : Store) (project content : String)
    (detection : Detection) (tags : List String) (now : Int) : Store × Option Nat :=
  let content_hash := compute_content_hash md5hex content
  if is_duplicate store project content_hash now then (store, none)
  else
    ({ store with
        memories := store.memories ++ [save_memory_row md5hex store project content detection tags now]
        nextId := store.nextId + 1 },
     some store.nextId)

/-- `update_active_context` (post_prompt_submit.py:457). -/
def update_active_context (store : Store) (project : String)
    (detection : Option Detection) (content_preview : String) (now : Int) : Store :=
  let state := if content_preview = "" then "Active session" else content_preview.take 100
  let state :=
    match detection with
    | some d => "[" ++ d.type ++ "] " ++ state
    | none => state
  { store with active_context := upsertActive store.active_context ⟨project, state, none, now⟩ }

/-- `main` (post_prompt_submit.py:481).  `db = none` models a missing
`sessions.db` (both `save_memory` and `update_active_context` bail out on
`os.path.exists`); the project and the stdin payload are inputs. -/
def post_prompt_main (rm rs : String → String → Bool) (md5hex : String → String)
    (hooks_disabled : Bool) (projectOpt : Option String) (contentOpt : Option String)
    (now : Int) (db : Option Store) : Option Store :=
  if hooks_disabled then db
  else
    match projectOpt with
    | none => db
    | some project =>
      match contentOpt with
      | none => db
      | some content =>
        if content = "" then db
        else
          let ov := check_user_override content
          if ov.2 then db
          else
            let detection0 := detect_memory_type rm rs content
            let detectionOpt :=
              if ov.1 then some (detection0.getD ⟨"important", 1, 0, "#remember override"⟩)
              else detection0
            match detectionOpt with
            | none =>
              (db.map (fun s => update_active_context s project none (content.take 100) now))
            | some detection =>
              let tags := extract_tags rs content
              let db1 := db.map (fun s => (save_memory md5hex s project content detection tags now).1)
              db1.map (fun s => update_active_context s project (some detection) (content.take 100) now)

end PostPrompt

namespace SessionEnd

/-! ## session_end.py -/

/-- Atoms of the tiny regex subset used by `MEMORY_TYPE_PATTERNS`
(session_end.py:37): every pattern there is a literal except for the single
occurrence of `.+` in `'use .+ instead'`. -/
inductive ReAtom where
  | lit (c : Char)
  | anyPlus
deriving Repr, DecidableEq

/-- Parse a pattern of the literal-plus-`.+` subset into atoms. -/
def parseAtoms : List Char → List ReAtom
  | [] => []
  | '.' :: '+' :: rest => ReAtom.anyPlus :: parseAtoms rest
  | c :: rest => ReAtom.lit c :: parseAtoms rest

/-- Match a list of atoms against a prefix of the text.  `.+` consumes between
one and as many consecutive non-newline characters as are available (Python's
`.` without `re.DOTALL` does not cross a newline). -/
def matchAtoms : List ReAtom → List Char → Bool
  | [], _ => true
  | ReAtom.lit _ :: _, [] => false
  | ReAtom.lit c :: as, d :: ds => c = d && matchAtoms as ds
  | ReAtom.anyPlus :: as, ds =>
    let k := (ds.takeWhile (fun c => c ≠ '\n')).length
    (List.range k).any (fun i => matchAtoms as (ds.drop (i + 1)))

/-- `re.search(pattern, text)` for the literal-plus-`.+` subset: try the match
at every start position. -/
def reSearch (pattern text : String) : Bool :=
  let atoms := parseAtoms pattern.data
  text.data.tails.any (fun t => matchAtoms atoms t)

def commit_decision_patterns : List String :=
  ["결정", "선택", "채택", "하기로", "으로 정", "방식으로",
   "decide", "choose", "adopt", "go with", "use .+ instead",
   "architecture", "아키텍처", "설계"]

def commit_error_patterns : List String :=
  ["에러", "오류", "버그", "수정", "fix", "해결",
   "error", "bug", "crash", "fail", "issue",
   "안됨", "안 됨", "문제", "problem"]

def commit_pattern_patterns : List String :=
  ["패턴", "규칙", "컨벤션", "방식",
   "pattern", "convention", "rule", "always", "never",
   "하면 안", "해야 함", "필수", "주의"]

def commit_learning_patterns : List String :=
  ["배움", "알게", "발견", "깨달",
   "learn", "discover", "realize", "found out", "til",
   "팁", "tip", "방법", "how to"]

/-- `MEMORY_TYPE_PATTERNS` (session_end.py:37), in dict insertion order. -/
def MEMORY_TYPE_PATTERNS : List (String × List String) :=
  [("decision", commit_decision_patterns),
   ("error", commit_error_patterns),
   ("pattern", commit_pattern_patterns),
   ("learning", commit_learning_patterns)]

/-- `classify_memory_type` (session_end.py:202): score every type by its
number of matching patterns against the lowercased text and take
`max(scores, key=scores.get)` — the first key of maximal score in dict
order — falling back to `'observation'` when all scores are zero. -/
def classify_memory_type (text : String) : String :=
  let tl := pyLower text
  let scores := MEMORY_TYPE_PATTERNS.map
    (fun tp => (tp.1, (tp.2.filter (fun p => reSearch p tl)).length))
  match scores with
  | [] => "observation"
  | s :: rest =>
    let best := rest.foldl (fun b x => if x.2 > b.2 then x else b) s
    if best.2 > 0 then best.1 else "observation"

/-- `DOMAIN_TAGS` (session_end.py:61). -/
def DOMAIN_TAGS : List (String × List String) :=
  [("ui", ["ui", "ux", "화면", "screen", "디자인", "design", "레이아웃", "layout", "버튼", "button", "스타일", "style", "widget"]),
   ("api", ["api", "서버", "server", "요청", "request", "response", "통신", "fetch", "http", "endpoint"]),
   ("state", ["상태", "state", "provider", "riverpod", "bloc", "redux", "store"]),
   ("auth", ["인증", "auth", "로그인", "login", "회원", "user", "토큰", "token"]),
   ("db", ["db", "database", "데이터베이스", "sqlite", "room", "query"]),
   ("test", ["테스트", "test", "검증", "verify", "spec"]),
   ("build", ["빌드", "build", "compile", "배포", "deploy", "release"])]

/-- `Path(f).suffix.lower()`, modelled for ordinary `dir/name.ext` paths
(the dot-file corner of `pathlib` is not needed by any claim). -/
def pathSuffix (f : String) : String :=
  let name := ((pySplit "/" f).getLastD f)
  match (pySplit "." name).reverse with
  | ext :: _ :: _ => pyLower ("." ++ ext)
  | _ => ""

/-- `extract_tags` (session_end.py:217).  As in the other hook, the Python
`set` contents are modelled in first-insertion order; `list(tags)[:5]`. -/
def extract_tags (text : String) (files : List String) : List String :=
  let tl := pyLower text
  let domainTags := (DOMAIN_TAGS.filter
    (fun dt => dt.2.any (fun k => strContains k tl))).map (fun dt => dt.1)
  let fileTags := files.filterMap (fun f =>
    let ext := pathSuffix f
    if ext = ".dart" then some "flutter"
    else if ext = ".kt" ∨ ext = ".java" then some "android"
    else if ext = ".ts" ∨ ext = ".tsx" ∨ ext = ".js" ∨ ext = ".jsx" then some "web"
    else if ext = ".py" then some "python"
    else none)
  ((domainTags ++ fileTags).dedup).take 5

/-- `SKIP_COMMIT_PATTERNS` (session_end.py:72). -/
def SKIP_COMMIT_PATTERNS : List String :=
  ["wip", "temp", "test commit", "minor", "fix typo", "merge branch",
   "initial commit", "update readme"]

/-- `should_skip_commit` (session_end.py:242). -/
def should_skip_commit (message : String) : Bool :=
  SKIP_COMMIT_PATTERNS.any (fun p => strContains p (pyLower message))

/-- One parsed line of `git log --pretty=format:%H|%s|%ci`. -/
structure Commit where
  hash : String
  message : String
  date : String
deriving Repr, DecidableEq

/-- `commit['short_hash']` (session_end.py:164). -/
def shortHash (c : Commit) : String := c.hash.take 8

/-- The commit tracker file `saved_commits.json`: project → list of processed
commit hashes. -/
def Ledger := String → List String

/-- `get_new_commits` (session_end.py:137) on the parsed log (already limited
to 10 entries by `git log -10`): drop commits already in the ledger, keep at
most 3. -/
def get_new_commits (log : List Commit) (saved_hashes : List String) : List Commit :=
  (log.filter (fun c => ¬ c.hash ∈ saved_hashes)).take 3

/-- The list-level step of `save_commit_hash` (session_end.py:183): append if
new, then keep the last 100. -/
def markStep (l : List String) (h : String) : List String :=
  if h ∈ l then l else lastN 100 (l ++ [h])

/-- `save_commit_hash` (session_end.py:183) on the whole ledger. -/
def save_commit_hash (ledger : Ledger) (project commit_hash : String) : Ledger :=
  fun q => if q = project then markStep (ledger project) commit_hash else ledger q

/-- `save_commit_session` (session_end.py:275): unconditional `sessions` insert
plus an `active_context` upsert. -/
def save_commit_session (store : Store) (project : String) (c : Commit)
    (files : List String) (now : Int) : Store :=
  let row : SessionRow :=
    { project := project
      last_work := c.message
      current_status := some ("Commit: " ++ shortHash c)
      modified_files := if files = [] then none else some files
      timestamp := now }
  let ac : ActiveContextRow :=
    ⟨project, c.message.take 200, if files = [] then none else some files, now⟩
  { store with
      sessions := store.sessions ++ [row]
      active_context := upsertActive store.active_context ac }

/-- `save_commit_memory` (session_end.py:309): refuse messages shorter than 10
characters, then refuse when any memory of the project already contains the
bracketed short hash (no time window), else insert. -/
def save_commit_memory (store : Store) (project : String) (c : Commit)
    (files : List String) (now : Int) : Store × Option Nat :=
  if c.message.length < 10 then (store, none)
  else
    let memory_type := classify_memory_type c.message
    let tags := extract_tags c.message files
    let importance : Int :=
      if memory_type = "decision" ∨ memory_type = "error" then 7 else 5
    if store.memories.any (fun m =>
        m.project == project && likeContains ("[" ++ shortHash c ++ "]") m.content)
    then (store, none)
    else
      let row : MemoryRow :=
        { id := store.nextId
          content := "[" ++ shortHash c ++ "] " ++ c.message
          memory_type := memory_type
          tags := if tags = [] then none else some tags
          project := project
          importance := importance
          created_at := now
          accessed_at := none }
      ({ store with memories := store.memories ++ [row], nextId := store.nextId + 1 },
       some store.nextId)

/-- The mutable state touched by `session_end.main`: the SQLite store and the
commit tracker file. -/
structure SEState where
  store : Store
  ledger : Ledger

/-- The per-commit body of the loop in `main` (session_end.py:385-405);
`commitFiles` is the `git diff-tree --name-only` oracle (already split into
lines). -/
def processCommit (commitFiles : String → List String) (project : String)
    (now : Int) (st : SEState) (c : Commit) : SEState :=
  if should_skip_commit c.message then
    { st with ledger := save_commit_hash st.ledger project c.hash }
  else
    let files := (commitFiles c.hash).take 10
    let store1 := save_commit_session st.store project c files now
    let store2 := (save_commit_memory store1 project c files now).1
    { store := store2, ledger := save_commit_hash st.ledger project c.hash }

/-- The commit-capture phase of `main` (session_end.py:380-408): compute the
novel commits once, then process each in order. -/
def commit_capture (commitFiles : String → List String) (project : String)
    (now : Int) (log : List Commit) (st : SEState) : SEState :=
  (get_new_commits log (st.ledger project)).foldl (processCommit commitFiles project now) st

end SessionEnd

namespace SessionStart

/-! ## session_start.py -/

/-- `SLOT_CONFIG` (session_start.py:32). -/
def SLOT_semantic : Nat := 3
def SLOT_git_related : Nat := 2
def SLOT_recent : Nat := 3
def SLOT_important : Nat := 2
def SLOT_fallback : Nat := 2

/-- `EMBEDDING_DIM` (session_start.py:44). -/
def EMBEDDING_DIM : Nat := 384

/-- Sum of squares appearing inside both norms of `cosine_similarity`. -/
def sumSquares [Field α] (a : List α) : α := (a.map (fun x => x * x)).sum

/-- `cosine_similarity` (session_start.py:56), generic in the number field so
that the ideal-real reading (`α = ℝ`, `sqrt = Real.sqrt`) and the executable
rational instantiation used by the retrieval pipeline share one definition;
`sqrt` models `math.sqrt`. -/
def cosine_similarity [LinearOrderedField α] [DecidableEq α] (sqrt : α → α)
    (a b : List α) : α :=
  if a.length ≠ b.length ∨ a.length = 0 then 0
  else
    let dot := (List.zipWith (fun x y => x * y) a b).sum
    let norm_a := sqrt (sumSquares a)
    let norm_b := sqrt (sumSquares b)
    if norm_a = 0 ∨ norm_b = 0 then 0
    else dot / (norm_a * norm_b)

/-- Characters the FTS5 `unicode61` tokenizer keeps (alphanumeric; Hangul
syllables are letters). -/
def isFtsTokenChar (c : Char) : Bool := c.isAlphanum || ('가' ≤ c && c ≤ '힣')

/-- Split a character list at every separator character (separators dropped,
empty pieces kept, as `String.split` does). -/
def splitPredGo (p : Char → Bool) (acc : List Char) : List Char → List (List Char)
  | [] => [acc.reverse]
  | c :: cs =>
    if p c then acc.reverse :: splitPredGo p [] cs
    else splitPredGo p (c :: acc) cs

/-- Tokenisation of stored content for the modelled `memories_fts MATCH`. -/
def ftsTokens (s : String) : List String :=
  (((splitPredGo (fun c => ¬ isFtsTokenChar c) [] s.data).map String.mk).filter
    (fun t => t ≠ "")).map pyLower

/-- `memories_fts MATCH 'k1 OR k2 OR …'`: some keyword is a token of the
content. -/
def ftsMatch (keywords : List String) (content : String) : Bool :=
  keywords.any (fun k => (ftsTokens content).contains k)

/-- `get_average_embedding` (session_start.py:71). -/
def get_average_embedding (embs : List EmbeddingRow) (memory_ids : List Nat) :
    Option (List ℚ) :=
  let collected := (memory_ids.take 10).filterMap (fun mid =>
    match embs.find? (fun e => e.entity_id == mid) with
    | some e => if e.embedding.length == EMBEDDING_DIM then some e.embedding else none
    | none => none)
  if collected = [] then none
  else
    let n : ℚ := collected.length
    some ((collected.foldl (fun acc emb => List.zipWith (fun x y => x + y) acc emb)
      (List.replicate EMBEDDING_DIM 0)).map (fun x => x / n))

/-- `search_semantic_memories` (session_start.py:102). -/
def search_semantic_memories (sqrtO : ℚ → ℚ) (mems : List MemoryRow)
    (embs : List EmbeddingRow) (project : String) (keywords : List String)
    (limit : Nat) : List MemoryRow :=
  let seed_ids :=
    if keywords ≠ [] then
      ((mems.filter (fun m =>
          ftsMatch (keywords.take 5) m.content && m.project == project)).take 5).map
        (fun m => m.id)
    else []
  let seed_ids :=
    if seed_ids = [] then
      ((stableSortBy (fun y x => decide (y.created_at > x.created_at))
          (mems.filter (fun m => m.project == project &&
            (m.memory_type == "decision" || m.memory_type == "error"
              || decide (m.importance ≥ 7))))).take 5).map (fun m => m.id)
    else seed_ids
  if seed_ids = [] then []
  else
    match get_average_embedding embs seed_ids with
    | none => []
    | some query_embedding =>
      let rows := mems.filter (fun m =>
        m.project == project && ¬ seed_ids.contains m.id)
      let results := rows.filterMap (fun m =>
        match embs.find? (fun e => e.entity_id == m.id) with
        | none => none
        | some e =>
          if e.embedding.length ≠ EMBEDDING_DIM then none
          else some (m, cosine_similarity sqrtO query_embedding e.embedding))
      ((stableSortBy (fun y x => decide (y.2 > x.2)) results).map (fun r => r.1)).take limit

/-- Row order of `ORDER BY importance DESC, created_at DESC`. -/
def impCreatedBefore (y x : MemoryRow) : Bool :=
  decide (y.importance > x.importance)
    || (y.importance == x.importance && decide (y.created_at > x.created_at))

/-- `search_memories_by_keywords` (session_start.py:223). -/
def search_memories_by_keywords (mems : List MemoryRow) (project : String)
    (keywords : List String) (limit : Nat) : List MemoryRow :=
  if keywords = [] then []
  else
    let matched := mems.filter (fun m =>
      m.project == project && ftsMatch (keywords.take 10) m.content)
    let ordered := stableSortBy impCreatedBefore matched
    (dedupById (fun m => m.id) (ordered.take (limit * 2))).take limit

/-- `search_recent_memories` (session_start.py:262):
`created_at > datetime('now', '-{days} days')`, `ORDER BY created_at DESC,
importance DESC`. -/
def search_recent_memories (mems : List MemoryRow) (project : String)
    (days : Int) (limit : Nat) (now : Int) : List MemoryRow :=
  let rows := mems.filter (fun m =>
    m.project == project && decide (now - days * 86400 < m.created_at))
  (stableSortBy (fun y x =>
    decide (y.created_at > x.created_at)
      || (y.created_at == x.created_at && decide (y.importance > x.importance))) rows).take limit

/-- `search_important_memories` (session_start.py:286). -/
def search_important_memories (mems : List MemoryRow) (project : String)
    (limit : Nat) : List MemoryRow :=
  let rows := mems.filter (fun m =>
    m.project == project &&
      (m.memory_type == "decision" || m.memory_type == "error"
        || decide (m.importance ≥ 8)))
  (stableSortBy impCreatedBefore rows).take limit

/-- Row order of `ORDER BY importance DESC, accessed_at DESC`
(SQLite NULLs are smallest, hence last under DESC). -/
def impAccessedBefore (y x : MemoryRow) : Bool :=
  decide (y.importance > x.importance)
    || (y.importance == x.importance &&
        (match y.accessed_at, x.accessed_at with
         | some a, some b => decide (a > b)
         | some _, none => true
         | _, _ => false))

/-- `search_fallback_memories` (session_start.py:311). -/
def search_fallback_memories (mems : List MemoryRow) (project : String)
    (limit : Nat) : List MemoryRow :=
  (stableSortBy impAccessedBefore (mems.filter (fun m => m.project == project))).take limit

/-- `deduplicate_memories` (session_start.py:334). -/
def deduplicate_memories (l : List MemoryRow) : List MemoryRow :=
  dedupById (fun m => m.id) l

/-- The five retrieval phases plus merge of `main` (session_start.py:485-503). -/
def retrieve (sqrtO : ℚ → ℚ) (mems : List MemoryRow) (embs : List EmbeddingRow)
    (project : String) (keywords : List String) (now : Int) : List MemoryRow :=
  let semantic := search_semantic_memories sqrtO mems embs project keywords SLOT_semantic
  let git := search_memories_by_keywords mems project keywords SLOT_git_related
  let recent := search_recent_memories mems project 7 SLOT_recent now
  let important := search_important_memories mems project SLOT_important
  let fallback := search_fallback_memories mems project SLOT_fallback
  (deduplicate_memories (semantic ++ git ++ recent ++ important ++ fallback)).take 12

/-- The ordered ids produced by the multi-phase retrieval. -/
def retrieveIds (sqrtO : ℚ → ℚ) (mems : List MemoryRow) (embs : List EmbeddingRow)
    (project : String) (keywords : List String) (now : Int) : List Nat :=
  (retrieve sqrtO mems embs project keywords now).map (fun m => m.id)

/-- Hangul syllable range of the keyword regex `[가-힣]{2,}|[a-zA-Z]{3,}`. -/
def isHangul (c : Char) : Bool := '가' ≤ c && c ≤ '힣'

def isLatinLetter (c : Char) : Bool := ('a' ≤ c && c ≤ 'z') || ('A' ≤ c && c ≤ 'Z')

/-- Character class for the keyword regex: 1 = Hangul, 2 = Latin letter,
0 = anything else. -/
def keywordCharClass (c : Char) : Nat :=
  if isHangul c then 1 else if isLatinLetter c then 2 else 0

/-- Split into maximal runs of a single nonzero character class.  `curRev` is
the current run reversed, `curClass` its class (0 when no run is open). -/
def keywordRunsGo (curRev : List Char) (curClass : Nat) : List Char → List (Nat × List Char)
  | [] => if curRev = [] then [] else [(curClass, curRev.reverse)]
  | c :: cs =>
    let k := keywordCharClass c
    if k = curClass ∧ k ≠ 0 then keywordRunsGo (c :: curRev) curClass cs
    else
      (if curRev = [] then [] else [(curClass, curRev.reverse)])
        ++ (if k = 0 then keywordRunsGo [] 0 cs else keywordRunsGo [c] k cs)

/-- `re.findall(r'[가-힣]{2,}|[a-zA-Z]{3,}', line)`: maximal Hangul runs of
length ≥ 2 and maximal Latin-letter runs of length ≥ 3, in order. -/
def keywordRuns (l : List Char) : List String :=
  (keywordRunsGo [] 0 l).filterMap (fun r =>
    if r.1 = 1 ∧ 2 ≤ r.2.length then some (String.mk r.2)
    else if r.1 = 2 ∧ 3 ≤ r.2.length then some (String.mk r.2)
    else none)

/-- File-path keywords of `extract_git_keywords` (session_start.py:212-218):
`f.replace('/', ' ').replace('_', ' ').replace('-', ' ').split()`, keeping
parts of length ≥ 3.  The single-character replacements are a character map;
`split()` on whitespace runs produces the same ≥-3 parts as splitting on each
space and discarding the shorter pieces. -/
def fileKeywords (f : String) : List String :=
  ((pySplit " " (String.mk (f.data.map (fun c =>
      if c = '/' ∨ c = '_' ∨ c = '-' then ' ' else c)))).filter
    (fun p => 3 ≤ p.length)).map pyLower

/-- The CONTENTS of the keyword `set` built by `extract_git_keywords`
(session_start.py:199), as a first-occurrence deduplicated list.  The actual
return value is `list(keywords)[:20]`, i.e. `enum.take 20` for some
enumeration `enum` of this set — the enumeration order of a Python `set` of
strings is unspecified (hash-seed dependent). -/
def extract_git_keywords_set (msgs : List String) (files : List String) : List String :=
  (((msgs.map (fun line => (keywordRuns line.data).map pyLower)).flatten)
    ++ (files.map fileKeywords).flatten).dedup

/-- `get_project_from_cwd` (session_start.py:171). -/
def get_project_from_cwd (cwd : String) : Option String :=
  if strContains "/apps/" cwd && decide ((pySplit "/apps/" cwd).length > 1) then
    some (((pySplit "/" ((pySplit "/apps/" cwd).getD 1 "")).headD ""))
  else if strContains "/tools/" cwd && decide ((pySplit "/tools/" cwd).length > 1) then
    some (((pySplit "/" ((pySplit "/tools/" cwd).getD 1 "")).headD ""))
  else none

/-- What `main` (session_start.py:460) writes to standard output, at message
granularity: nothing, the no-database notice, or the `<session-context>` block
(whose memory list is the retrieval result; the Markdown assembly around it is
display glue).  `load_project_context` always returns a dict containing the
`pending_tasks` key, so a non-empty dict, hence the `if context or
all_memories` branch always prints the block when the database exists. -/
inductive SSOutput where
  | noOutput
  | noDbMsg (project : String)
  | contextMsg (project : String) (memoryIds : List Nat)
deriving Repr, DecidableEq

/-- `main` (session_start.py:460).  Faithful to the source, this entry point
never tests `MCP_HOOKS_DISABLED`: the `mcp_hooks_disabled` argument is
deliberately unused, unlike in the other three hooks.  `keywordEnum` is the
enumeration of the git-keyword set (see `extract_git_keywords_set`). -/
def session_start_main (sqrtO : ℚ → ℚ) (mcp_hooks_disabled : Bool) (cwd : String)
    (db : Option Store) (now : Int) (keywordEnum : List String) : SSOutput :=
  match get_project_from_cwd cwd with
  | none => SSOutput.noOutput
  | some project =>
    if project = "" then SSOutput.noOutput
    else
      match db with
      | none => SSOutput.noDbMsg project
      | some store =>
        let git_keywords := keywordEnum.take 20
        let mems := retrieve sqrtO store.memories store.embeddings project git_keywords now
        SSOutput.contextMsg project (mems.map (fun m => m.id))

end SessionStart

/-! ## Supporting lemmas -/

lemma mk_append (l1 l2 : List Char) :
    String.mk l1 ++ String.mk l2 = String.mk (l1 ++ l2) := rfl

lemma pyLower_append (a b : String) :
    pyLower (a ++ b) = pyLower a ++ pyLower b := by
  simp [pyLower, mk_append]

lemma likeContains_bracket (h rest : String) :
    likeContains h (h ++ rest) = true := by
  unfold likeContains strContains
  apply decide_eq_true
  rw [pyLower_append]
  exact ⟨[], (pyLower rest).data, by simp⟩

lemma mem_of_mem_lastN {x : α} {n : Nat} {l : List α} (hm : x ∈ lastN n l) : x ∈ l :=
  (List.drop_sublist _ _).subset hm

lemma lastN_of_length_le {n : Nat} {l : List α} (hl : l.length ≤ n) : lastN n l = l := by
  unfold lastN
  rw [Nat.sub_eq_zero_of_le hl, List.drop_zero]

lemma take_cons_take (n : Nat) (a : α) (r : List α) :
    List.take n (a :: List.take n r) = List.take n (a :: r) := by
  cases n with
  | zero => simp
  | succ m =>
    simp only [List.take_succ_cons, List.take_take]
    rw [Nat.min_eq_left (Nat.le_succ m)]

lemma lastN_append_lastN (n : Nat) (l : List α) (a : α) :
    lastN n (lastN n l ++ [a]) = lastN n (l ++ [a]) := by
  have hr : ∀ m : List α, lastN n m = (m.reverse.take n).reverse := by
    intro m
    have := List.rtake_eq_reverse_take_reverse (l := m) (n := n)
    simpa [List.rtake, lastN] using this
  rw [hr, hr, hr]
  simp only [List.reverse_append, List.reverse_singleton, List.singleton_append,
    List.reverse_reverse]
  rw [take_cons_take]

/-- The per-project effect of `save_commit_hash`. -/
lemma save_commit_hash_apply (L : SessionEnd.Ledger) (p h : String) :
    SessionEnd.save_commit_hash L p h p = SessionEnd.markStep (L p) h := by
  simp [SessionEnd.save_commit_hash]

lemma save_commit_hash_apply_ne (L : SessionEnd.Ledger) (p h q : String) (hq : q ≠ p) :
    SessionEnd.save_commit_hash L p h q = L q := by
  simp [SessionEnd.save_commit_hash, hq]

lemma mem_markStep_self (l : List String) (h : String) : h ∈ SessionEnd.markStep l h := by
  unfold SessionEnd.markStep
  split
  · assumption
  · have hk : (l ++ [h]).length - 100 ≤ l.length := by
      simp only [List.length_append, List.length_singleton]
      omega
    unfold lastN
    rw [List.drop_append_of_le_length hk]
    exact List.mem_append_right _ (List.mem_singleton_self h)

lemma mem_markStep_of_mem {l : List String} {x : String} (h : String)
    (hlen : l.length ≤ 99) (hm : x ∈ l) : x ∈ SessionEnd.markStep l h := by
  unfold SessionEnd.markStep
  split
  · exact hm
  · rw [lastN_of_length_le (by simp only [List.length_append, List.length_singleton]; omega)]
    exact List.mem_append_left _ hm

lemma length_markStep_le (l : List String) (h : String) :
    (SessionEnd.markStep l h).length ≤ l.length + 1 := by
  unfold SessionEnd.markStep
  split
  · omega
  · unfold lastN
    simp only [List.length_drop, List.length_append, List.length_singleton]
    omega

lemma markStep_of_not_mem {l : List String} {h : String} (hno : h ∉ l) :
    SessionEnd.markStep l h = lastN 100 (l ++ [h]) := by
  unfold SessionEnd.markStep
  rw [if_neg hno]

/-- Marking a `Nodup` batch of hashes starting from the last-100 window of a
processed prefix yields the last-100 window of the whole list. -/
lemma fold_markStep_lastN (hs : List String) :
    ∀ pre : List String, (pre ++ hs).Nodup →
      hs.foldl SessionEnd.markStep (lastN 100 pre) = lastN 100 (pre ++ hs) := by
  induction hs with
  | nil => intro pre _; simp
  | cons h t ih =>
    intro pre hnd
    have hnotin : h ∉ pre := by
      rcases List.nodup_append.mp hnd with ⟨_, _, hdisj⟩
      exact fun hm => hdisj hm (List.mem_cons_self h t)
    have hstep : SessionEnd.markStep (lastN 100 pre) h = lastN 100 (pre ++ [h]) := by
      rw [markStep_of_not_mem (fun hm => hnotin (mem_of_mem_lastN hm))]
      exact lastN_append_lastN 100 pre h
    rw [List.foldl_cons, hstep]
    have hnd' : ((pre ++ [h]) ++ t).Nodup := by
      simpa [List.append_assoc] using hnd
    have := ih (pre ++ [h]) hnd'
    simpa [List.append_assoc] using this

lemma fold_save_commit_hash_apply (p : String) (hs : List String) :
    ∀ L : SessionEnd.Ledger,
      (hs.foldl (fun L h => SessionEnd.save_commit_hash L p h) L) p
        = hs.foldl SessionEnd.markStep (L p) := by
  induction hs with
  | nil => intro L; rfl
  | cons h t ih =>
    intro L
    rw [List.foldl_cons, List.foldl_cons, ih, save_commit_hash_apply]

/-! ## C6: ledger bounding -/

/-- C6: after marking 105 distinct commit identifiers for one project via
`save_commit_hash` starting from an empty ledger, exactly the 100 most
recently marked identifiers remain recorded for that project, and the 5
oldest have been evicted. -/
theorem c6_ledger_bound (p : String) (hs : List String) (hnd : hs.Nodup)
    (hlen : hs.length = 105) :
    (hs.foldl (fun L h => SessionEnd.save_commit_hash L p h) (fun _ => [])) p = hs.drop 5
    ∧ ∀ h ∈ hs.take 5,
        h ∉ (hs.foldl (fun L h => SessionEnd.save_commit_hash L p h) (fun _ => [])) p := by
  have hfold :
      (hs.foldl (fun L h => SessionEnd.save_commit_hash L p h) (fun _ => [])) p = hs.drop 5 := by
    rw [fold_save_commit_hash_apply]
    have h0 : lastN 100 ([] : List String) = [] := rfl
    have := fold_markStep_lastN hs [] (by simpa using hnd)
    rw [h0] at this
    simp only [List.nil_append] at this
    rw [this]
    unfold lastN
    rw [hlen]
  refine ⟨hfold, ?_⟩
  intro h hmem hmem'
  rw [hfold] at hmem'
  have hsplit : hs.take 5 ++ hs.drop 5 = hs := List.take_append_drop 5 hs
  have : (hs.take 5 ++ hs.drop 5).Nodup := by rw [hsplit]; exact hnd
  rcases List.nodup_append.mp this with ⟨_, _, hdisj⟩
  exact hdisj hmem hmem'

/-- Witness for C6 at 105 concrete distinct identifiers. -/
theorem c6_ledger_bound_witness :
    (((List.range 105).map (fun i => toString i)).Nodup
        ∧ ((List.range 105).map (fun i => toString i)).length = 105)
    ∧ ((((List.range 105).map (fun i => toString i)).foldl
          (fun L h => SessionEnd.save_commit_hash L "p" h) (fun _ => [])) "p"
        = ((List.range 105).map (fun i => toString i)).drop 5) :=
  ⟨⟨by decide, by decide⟩,
   (c6_ledger_bound "p" ((List.range 105).map (fun i => toString i))
      (by decide) (by decide)).1⟩

/-! ## C9: commit-path dedup has no time window -/

/-- C9: if any memory row of the project already contains the bracketed
8-character short commit hash — with no constraint whatsoever on how old that
row is — `save_commit_memory` writes nothing and returns `none`. -/
theorem c9_commit_dedup_no_window (store : Store) (p : String) (c : SessionEnd.Commit)
    (files : List String) (now : Int)
    (hdup : ∃ m ∈ store.memories, m.project = p
              ∧ likeContains ("[" ++ SessionEnd.shortHash c ++ "]") m.content = true) :
    SessionEnd.save_commit_memory store p c files now = (store, none) := by
  unfold SessionEnd.save_commit_memory
  by_cases hl : c.message.length < 10
  · rw [if_pos hl]
  · rw [if_neg hl]
    have hany : store.memories.any (fun m =>
        m.project == p && likeContains ("[" ++ SessionEnd.shortHash c ++ "]") m.content)
        = true := by
      rcases hdup with ⟨m, hm, hproj, hlike⟩
      refine List.any_eq_true.mpr ⟨m, hm, ?_⟩
      rw [Bool.and_eq_true]
      exact ⟨beq_iff_eq.mpr hproj, hlike⟩
    simp only [hany, if_true]

/-- Witness for C9: a ten-day-old row with the same bracketed short hash
blocks the write. -/
theorem c9_commit_dedup_no_window_witness :
    (∃ m ∈ [({ id := 1, content := "[abcd1234] olddata", memory_type := "observation",
                tags := none, project := "p", importance := 5,
                created_at := -864000, accessed_at := none } : MemoryRow)],
        m.project = "p"
          ∧ likeContains ("[" ++ SessionEnd.shortHash ⟨"abcd1234ffff", "improve the parser", "d"⟩ ++ "]")
              m.content = true)
    ∧ SessionEnd.save_commit_memory
        ⟨[{ id := 1, content := "[abcd1234] olddata", memory_type := "observation",
            tags := none, project := "p", importance := 5,
            created_at := -864000, accessed_at := none }], [], [], [], 2⟩
        "p" ⟨"abcd1234ffff", "improve the parser", "d"⟩ [] 0
      = (⟨[{ id := 1, content := "[abcd1234] olddata", memory_type := "observation",
             tags := none, project := "p", importance := 5,
             created_at := -864000, accessed_at := none }], [], [], [], 2⟩, none) :=
  ⟨by decide,
   c9_commit_dedup_no_window _ "p" ⟨"abcd1234ffff", "improve the parser", "d"⟩ [] 0 (by decide)⟩

/-! ## C10: short commit message gives a Session row but no Memory row -/

/-- C10: a novel commit that passes the triviality filter but whose message is
shorter than 10 characters produces exactly one new Session row, no Memory
row, and is still marked seen in the ledger. -/
theorem c10_short_message_session_only (cf : String → List String) (p : String)
    (now : Int) (st : SessionEnd.SEState) (c : SessionEnd.Commit)
    (hnov : c.hash ∉ st.ledger p)
    (hskip : SessionEnd.should_skip_commit c.message = false)
    (hlen : c.message.length < 10) :
    ((SessionEnd.commit_capture cf p now [c] st).store.sessions.length
        = st.store.sessions.length + 1)
    ∧ (SessionEnd.commit_capture cf p now [c] st).store.memories = st.store.memories
    ∧ c.hash ∈ (SessionEnd.commit_capture cf p now [c] st).ledger p := by
  have hnew : SessionEnd.get_new_commits [c] (st.ledger p) = [c] := by
    simp [SessionEnd.get_new_commits, hnov]
  unfold SessionEnd.commit_capture
  rw [hnew]
  simp only [List.foldl_cons, List.foldl_nil]
  unfold SessionEnd.processCommit
  rw [hskip]
  simp only [Bool.false_eq_true, if_false]
  unfold SessionEnd.save_commit_memory
  rw [if_pos hlen]
  refine ⟨?_, ?_, ?_⟩
  · simp [SessionEnd.save_commit_session]
  · simp [SessionEnd.save_commit_session]
  · rw [save_commit_hash_apply]
    exact mem_markStep_self _ _

/-- Witness for C10: the novel commit `h1` with the 9-character message
`short fix`. -/
theorem c10_short_message_session_only_witness :
    (("h1" ∉ (((fun _ => []) : SessionEnd.Ledger) "p"))
      ∧ SessionEnd.should_skip_commit "short fix" = false
      ∧ ("short fix" : String).length < 10)
    ∧ ((SessionEnd.commit_capture (fun _ => []) "p" 0 [⟨"h1", "short fix", "d"⟩]
          ⟨⟨[], [], [], [], 1⟩, fun _ => []⟩).store.sessions.length
        = (⟨⟨[], [], [], [], 1⟩, (fun _ => [])⟩ : SessionEnd.SEState).store.sessions.length + 1)
    ∧ (SessionEnd.commit_capture (fun _ => []) "p" 0 [⟨"h1", "short fix", "d"⟩]
          ⟨⟨[], [], [], [], 1⟩, fun _ => []⟩).store.memories
        = (⟨⟨[], [], [], [], 1⟩, (fun _ => [])⟩ : SessionEnd.SEState).store.memories
    ∧ "h1" ∈ (SessionEnd.commit_capture (fun _ => []) "p" 0 [⟨"h1", "short fix", "d"⟩]
          ⟨⟨[], [], [], [], 1⟩, fun _ => []⟩).ledger "p" := by
  have h := c10_short_message_session_only (fun _ => []) "p" 0
    ⟨⟨[], [], [], [], 1⟩, fun _ => []⟩ ⟨"h1", "short fix", "d"⟩
    (by decide) (by decide) (by decide)
  exact ⟨⟨by decide, by decide, by decide⟩, h.1, h.2.1, h.2.2⟩

/-! ## C7: skip overrides remember -/

/-- C7: for any input text containing both a skip marker and a remember marker
(after Python lowercasing), `check_user_override` yields `force_skip` and the
capture entry point leaves the store untouched. -/
theorem c7_skip_precedence (content : String)
    (hs : ∃ m ∈ PostPrompt.USER_OVERRIDES_skip, strContains m (pyLower content) = true)
    (hr : ∃ m ∈ PostPrompt.USER_OVERRIDES_remember, strContains m (pyLower content) = true) :
    PostPrompt.check_user_override content = (false, true)
    ∧ ∀ (rm rs : String → String → Bool) (md5hex : String → String)
        (project : String) (now : Int) (db : Option Store),
        PostPrompt.post_prompt_main rm rs md5hex false (some project) (some content) now db
          = db := by
  have hskipany :
      PostPrompt.USER_OVERRIDES_skip.any (fun m => strContains m (pyLower content)) = true :=
    List.any_eq_true.mpr hs
  have hcheck : PostPrompt.check_user_override content = (false, true) := by
    unfold PostPrompt.check_user_override
    simp only [hskipany, if_true]
  refine ⟨hcheck, ?_⟩
  intro rm rs md5hex project now db
  have hne : content ≠ "" := by
    intro hc
    rcases hs with ⟨m, hm, hcont⟩
    rw [hc] at hcont
    unfold strContains at hcont
    have hinf : m.data <:+: (pyLower "").data := of_decide_eq_true hcont
    have hlen : m.data.length ≤ (pyLower "").data.length :=
      hinf.sublist.length_le
    simp only [pyLower, List.length_map] at hlen
    simp only [PostPrompt.USER_OVERRIDES_skip, List.mem_cons, List.not_mem_nil] at hm
    rcases hm with rfl|rfl|rfl|rfl|rfl|rfl|rfl|rfl|h
    all_goals first
      | (exact absurd hlen (by decide))
      | exact h.elim
  unfold PostPrompt.post_prompt_main
  simp only [Bool.false_eq_true, if_false, hne, hcheck, if_true]

/-- Witness for C7 at a content carrying both marker families. -/
theorem c7_skip_precedence_witness :
    ((∃ m ∈ PostPrompt.USER_OVERRIDES_skip,
        strContains m (pyLower "please #skip this but also #remember it") = true)
      ∧ (∃ m ∈ PostPrompt.USER_OVERRIDES_remember,
        strContains m (pyLower "please #skip this but also #remember it") = true))
    ∧ PostPrompt.check_user_override "please #skip this but also #remember it" = (false, true)
    ∧ PostPrompt.post_prompt_main (fun _ _ => false) (fun _ _ => true) (fun s => s) false
        (some "proj") (some "please #skip this but also #remember it") 0
        (some ⟨[], [], [], [], 1⟩)
      = some ⟨[], [], [], [], 1⟩ := by
  have h := c7_skip_precedence "please #skip this but also #remember it"
    (by decide) (by decide)
  exact ⟨⟨by decide, by decide⟩, h.1,
    h.2 (fun _ _ => false) (fun _ _ => true) (fun s => s) "proj" 0 (some ⟨[], [], [], [], 1⟩)⟩

/-! ## C4: the disable switch is ignored by session_start -/

/-- C4 (code bug): with `MCP_HOOKS_DISABLED='true'`, the session-start entry
point still emits output — its `main` never consults the switch — here shown
on the failing input `cwd = "/ws/apps/demo"` with no database file, where the
hook prints the no-database notice instead of returning silently. -/
theorem c4_disable_switch_ignored :
    SessionStart.session_start_main (fun q => q) true "/ws/apps/demo" none 0 []
      = SessionStart.SSOutput.noDbMsg "demo"
    ∧ SessionStart.SSOutput.noDbMsg "demo" ≠ SessionStart.SSOutput.noOutput :=
  ⟨by decide, by decide⟩

/-! ## C1: 24-hour content-hash deduplication -/

lemma save_memory_of_dup {md5hex : String → String} {store : Store} {p c : String}
    {d : PostPrompt.Detection} {tg : List String} {now : Int}
    (hd : PostPrompt.is_duplicate store p (PostPrompt.compute_content_hash md5hex c) now
            = true) :
    PostPrompt.save_memory md5hex store p c d tg now = (store, none) := by
  unfold PostPrompt.save_memory
  simp only [hd, if_true]

lemma save_memory_of_not_dup {md5hex : String → String} {store : Store} {p c : String}
    {d : PostPrompt.Detection} {tg : List String} {now : Int}
    (hd : PostPrompt.is_duplicate store p (PostPrompt.compute_content_hash md5hex c) now
            = false) :
    PostPrompt.save_memory md5hex store p c d tg now
      = ({ store with
            memories := store.memories ++ [PostPrompt.save_memory_row md5hex store p c d tg now]
            nextId := store.nextId + 1 },
         some store.nextId) := by
  unfold PostPrompt.save_memory
  simp only [hd, Bool.false_eq_true, if_false]

lemma bracket_content_like (h sc : String) :
    likeContains ("[" ++ h ++ "]") ("[" ++ h ++ "] " ++ sc) = true := by
  have hsplit : "[" ++ h ++ "] " ++ sc = ("[" ++ h ++ "]") ++ (" " ++ sc) := by
    have h1 : ("] " : String) = "]" ++ " " := rfl
    rw [h1]
    simp only [String.append_assoc]
  rw [hsplit]
  exact likeContains_bracket _ _

/-- C1: after a fresh save of content `c₁` at time `t₁`, a second save of any
content with the same normalised form is rejected (store unchanged, no row id)
whenever it happens within the 24-hour window, and is permitted again once the
window has passed (provided no other old row still carries the hash). -/
theorem c1_dedup_window (md5hex : String → String) (store₀ : Store)
    (p c₁ c₂ : String) (d₁ d₂ : PostPrompt.Detection) (tg₁ tg₂ : List String)
    (t₁ t₂ : Int)
    (hnorm : normalizeContent c₂ = normalizeContent c₁)
    (h₁ : PostPrompt.is_duplicate store₀ p (PostPrompt.compute_content_hash md5hex c₁) t₁
            = false) :
    ((PostPrompt.save_memory md5hex store₀ p c₁ d₁ tg₁ t₁).1.memories.length
        = store₀.memories.length + 1)
    ∧ (t₂ - 86400 < t₁ →
        PostPrompt.save_memory md5hex (PostPrompt.save_memory md5hex store₀ p c₁ d₁ tg₁ t₁).1
            p c₂ d₂ tg₂ t₂
          = ((PostPrompt.save_memory md5hex store₀ p c₁ d₁ tg₁ t₁).1, none))
    ∧ (t₁ ≤ t₂ - 86400 →
        PostPrompt.is_duplicate store₀ p (PostPrompt.compute_content_hash md5hex c₁) t₂
            = false →
        (PostPrompt.save_memory md5hex (PostPrompt.save_memory md5hex store₀ p c₁ d₁ tg₁ t₁).1
            p c₂ d₂ tg₂ t₂).1.memories.length = store₀.memories.length + 2) := by
  have hhash : PostPrompt.compute_content_hash md5hex c₂
      = PostPrompt.compute_content_hash md5hex c₁ := by
    unfold PostPrompt.compute_content_hash
    rw [hnorm]
  set hash := PostPrompt.compute_content_hash md5hex c₁ with hhashdef
  set row₁ : MemoryRow := PostPrompt.save_memory_row md5hex store₀ p c₁ d₁ tg₁ t₁ with hrow₁
  have hsave₁ : PostPrompt.save_memory md5hex store₀ p c₁ d₁ tg₁ t₁
      = ({ store₀ with memories := store₀.memories ++ [row₁], nextId := store₀.nextId + 1 },
         some store₀.nextId) := save_memory_of_not_dup h₁
  have hrowproj : row₁.project = p := by rw [hrow₁]; rfl
  have hrowtime : row₁.created_at = t₁ := by rw [hrow₁]; rfl
  have hrowlike : likeContains ("[" ++ hash ++ "]") row₁.content = true := by
    have hrc : row₁.content
        = "[" ++ hash ++ "] " ++ (if c₁.length > 2000 then c₁.take 2000 else c₁) := by
      rw [hrow₁]; rfl
    rw [hrc]
    exact bracket_content_like hash _
  refine ⟨?_, ?_, ?_⟩
  · rw [hsave₁]
    simp
  · intro hwin
    have hdup : PostPrompt.is_duplicate (PostPrompt.save_memory md5hex store₀ p c₁ d₁ tg₁ t₁).1
        p (PostPrompt.compute_content_hash md5hex c₂) t₂ = true := by
      rw [hhash, hsave₁]
      unfold PostPrompt.is_duplicate
      refine List.any_eq_true.mpr ⟨row₁, List.mem_append_right _ (List.mem_singleton_self _), ?_⟩
      simp only [Bool.and_eq_true, beq_iff_eq, decide_eq_true_eq]
      refine ⟨⟨hrowproj, hrowlike⟩, ?_⟩
      rw [hrowtime]
      exact hwin
    exact save_memory_of_dup hdup
  · intro hafter h₂old
    have hdup : PostPrompt.is_duplicate (PostPrompt.save_memory md5hex store₀ p c₁ d₁ tg₁ t₁).1
        p (PostPrompt.compute_content_hash md5hex c₂) t₂ = false := by
      rw [hhash, hsave₁]
      unfold PostPrompt.is_duplicate
      rw [List.any_append]
      have h1 : store₀.memories.any (fun m =>
          m.project == p && likeContains ("[" ++ hash ++ "]") m.content
            && decide (t₂ - 86400 < m.created_at)) = false := by
        unfold PostPrompt.is_duplicate at h₂old
        exact h₂old
      rw [h1]
      simp only [Bool.false_or, List.any_cons, List.any_nil, Bool.or_false]
      have hnot : decide (t₂ - 86400 < row₁.created_at) = false := by
        rw [hrowtime]
        exact decide_eq_false (by omega)
      rw [hnot]
      simp
    rw [save_memory_of_not_dup hdup, hsave₁]
    simp

/-- Witness for C1: the same content saved at `t = 0` and again at `t = 100`
into an initially empty store is stored exactly once. -/
theorem c1_dedup_window_witness :
    (PostPrompt.is_duplicate ⟨[], [], [], [], 1⟩ "p"
        (PostPrompt.compute_content_hash (fun s => s) "remember this fact") 0 = false
      ∧ (100 : Int) - 86400 < 0)
    ∧ PostPrompt.save_memory (fun s => s)
        (PostPrompt.save_memory (fun s => s) ⟨[], [], [], [], 1⟩ "p" "remember this fact"
          ⟨"learning", 0.85, 3, "x"⟩ [] 0).1
        "p" "remember this fact" ⟨"learning", 0.85, 3, "x"⟩ [] 100
      = ((PostPrompt.save_memory (fun s => s) ⟨[], [], [], [], 1⟩ "p" "remember this fact"
          ⟨"learning", 0.85, 3, "x"⟩ [] 0).1, none) :=
  ⟨⟨by decide, by decide⟩,
   (c1_dedup_window (fun s => s) ⟨[], [], [], [], 1⟩ "p" "remember this fact"
      "remember this fact" ⟨"learning", 0.85, 3, "x"⟩ ⟨"learning", 0.85, 3, "x"⟩ [] [] 0 100
      rfl (by decide)).2.1 (by decide)⟩

/-! ## C3: classification priority -/

lemma sorted_types_eq : PostPrompt.sorted_types = PostPrompt.MEMORY_PATTERNS := rfl

lemma findSome?_exists_of_exists {l : List α} {f : α → Option β}
    (hex : ∃ a ∈ l, (f a).isSome) : ∃ b, l.findSome? f = some b := by
  induction l with
  | nil => simp at hex
  | cons x xs ih =>
    cases hfx : f x with
    | some b => exact ⟨b, by rw [List.findSome?_cons, hfx]⟩
    | none =>
      rcases hex with ⟨a, ha, hsome⟩
      rcases List.mem_cons.mp ha with rfl | hmem
      · rw [hfx] at hsome; simp at hsome
      · rcases ih ⟨a, hmem, hsome⟩ with ⟨b, hb⟩
        exact ⟨b, by rw [List.findSome?_cons, hfx, hb]⟩

lemma findSome?_eq_some_imp {l : List α} {f : α → Option β} {b : β}
    (h : l.findSome? f = some b) : ∃ a ∈ l, f a = some b := by
  induction l with
  | nil => simp [List.findSome?] at h
  | cons x xs ih =>
    rw [List.findSome?_cons] at h
    cases hfx : f x with
    | some c =>
      rw [hfx] at h
      cases h
      exact ⟨x, List.mem_cons_self _ _, hfx⟩
    | none =>
      rw [hfx] at h
      rcases ih h with ⟨a, ha, hfa⟩
      exact ⟨a, List.mem_cons_of_mem _ ha, hfa⟩

/-- C3 (amended): the conversation-path classifier `detect_memory_type`
iterates the types in ascending priority order and returns on the first
matching pattern of the first type whose minimum length is met, so any
non-skipped text of length ≥ 50 matching some decision pattern is classified
`decision` (confidence 0.9, priority 1) no matter which error patterns also
match.  (The commit-path `classify_memory_type` does not obey this rule; see
the counterexample.) -/
theorem c3_priority_amended (rm rs : String → String → Bool) (content : String)
    (hskip : PostPrompt.should_skip_content rm content = false)
    (hlen : 50 ≤ content.length)
    (hdec : ∃ pat ∈ PostPrompt.decision_patterns, rs pat content = true) :
    ∃ d : PostPrompt.Detection,
      PostPrompt.detect_memory_type rm rs content = some d
        ∧ d.type = "decision" ∧ d.confidence = 0.9 ∧ d.priority = 1 := by
  have hex : ∃ b, PostPrompt.decision_patterns.findSome? (fun p =>
      if rs p content then
        some (⟨"decision", 0.9, 1, p.take 50⟩ : PostPrompt.Detection)
      else none) = some b := by
    rcases hdec with ⟨pat, hp, hrs⟩
    exact findSome?_exists_of_exists ⟨pat, hp, by rw [hrs]; simp⟩
  rcases hex with ⟨d, hd⟩
  have hdfields : d.type = "decision" ∧ d.confidence = 0.9 ∧ d.priority = 1 := by
    rcases findSome?_eq_some_imp hd with ⟨a, _, hfa⟩
    by_cases hra : rs a content = true
    · rw [hra] at hfa
      simp only [if_true] at hfa
      cases hfa
      exact ⟨rfl, rfl, rfl⟩
    · rw [Bool.not_eq_true] at hra
      rw [hra] at hfa
      simp at hfa
  refine ⟨d, ?_, hdfields⟩
  unfold PostPrompt.detect_memory_type
  rw [hskip]
  simp only [Bool.false_eq_true, if_false]
  rw [sorted_types_eq]
  show (PostPrompt.MEMORY_PATTERNS).findSome? _ = some d
  rw [show PostPrompt.MEMORY_PATTERNS
      = ("decision", ⟨1, 0.9, 50, PostPrompt.decision_patterns⟩)
          :: [("error", ⟨2, 0.85, 30, PostPrompt.error_patterns⟩),
              ("learning", ⟨3, 0.85, 40, PostPrompt.learning_patterns⟩),
              ("implementation", ⟨4, 0.8, 60, PostPrompt.implementation_patterns⟩),
              ("important", ⟨5, 0.75, 30, PostPrompt.important_patterns⟩),
              ("code", ⟨6, 0.7, 200, PostPrompt.code_patterns⟩)] from rfl]
  rw [List.findSome?_cons]
  have hnotlt : ¬ (content.length < 50) := by omega
  simp only [hnotlt, if_false]
  rw [hd]

/-- Witness for C3 (amended) with an always-matching search oracle and a
never-matching skip oracle on a 60-character text. -/
theorem c3_priority_amended_witness :
    (PostPrompt.should_skip_content (fun _ _ => false)
        (String.mk (List.replicate 60 'a')) = false
      ∧ 50 ≤ (String.mk (List.replicate 60 'a')).length
      ∧ (∃ pat ∈ PostPrompt.decision_patterns,
          (fun (_ _ : String) => true) pat (String.mk (List.replicate 60 'a')) = true))
    ∧ ∃ d : PostPrompt.Detection,
        PostPrompt.detect_memory_type (fun _ _ => false) (fun _ _ => true)
            (String.mk (List.replicate 60 'a')) = some d
          ∧ d.type = "decision" ∧ d.confidence = 0.9 ∧ d.priority = 1 :=
  ⟨⟨by decide, by decide,
    ⟨"\\b(decided|chose|will use|going with|selected|picked|opted for)\\b",
      by decide, rfl⟩⟩,
   c3_priority_amended (fun _ _ => false) (fun _ _ => true)
     (String.mk (List.replicate 60 'a')) (by decide) (by decide)
     ⟨"\\b(decided|chose|will use|going with|selected|picked|opted for)\\b",
      by decide, rfl⟩⟩

/-- Counterexample for C3 as stated: the 55-character commit-path text
`we decide to fix the bug in the tokenizer and the issue` matches a decision
pattern and error patterns of `classify_memory_type`'s table (and exceeds
both conversational minimum lengths), yet the commit-path classifier scores
the two error matches above the single decision match and returns `error`,
not `decision`. -/
theorem c3_classifier_counterexample :
    (50 ≤ ("we decide to fix the bug in the tokenizer and the issue" : String).length)
    ∧ (∃ pat ∈ SessionEnd.commit_decision_patterns,
        SessionEnd.reSearch pat
          (pyLower "we decide to fix the bug in the tokenizer and the issue") = true)
    ∧ (∃ pat ∈ SessionEnd.commit_error_patterns,
        SessionEnd.reSearch pat
          (pyLower "we decide to fix the bug in the tokenizer and the issue") = true)
    ∧ SessionEnd.classify_memory_type
        "we decide to fix the bug in the tokenizer and the issue" = "error" := by
  refine ⟨by decide, ⟨"decide", by decide, by decide⟩, ⟨"fix", by decide, by decide⟩, by decide⟩

/-! ## C2: ledger idempotence of commit capture -/

lemma processCommit_ledger (cf : String → List String) (p : String) (now : Int)
    (st : SessionEnd.SEState) (c : SessionEnd.Commit) :
    (SessionEnd.processCommit cf p now st c).ledger
      = SessionEnd.save_commit_hash st.ledger p c.hash := by
  unfold SessionEnd.processCommit
  split
  · rfl
  · rfl

lemma processList_ledger (cf : String → List String) (p : String) (now : Int) :
    ∀ (cs : List SessionEnd.Commit) (st : SessionEnd.SEState),
      (cs.foldl (SessionEnd.processCommit cf p now) st).ledger
        = cs.foldl (fun L c => SessionEnd.save_commit_hash L p c.hash) st.ledger := by
  intro cs
  induction cs with
  | nil => intro st; rfl
  | cons c t ih =>
    intro st
    rw [List.foldl_cons, List.foldl_cons, ih, processCommit_ledger]

lemma fold_markStep_invariant :
    ∀ (hs : List String) (l0 : List String), l0.length + hs.length ≤ 100 →
      (∀ x ∈ l0, x ∈ hs.foldl SessionEnd.markStep l0)
      ∧ (∀ h ∈ hs, h ∈ hs.foldl SessionEnd.markStep l0)
      ∧ (hs.foldl SessionEnd.markStep l0).length ≤ l0.length + hs.length := by
  intro hs
  induction hs with
  | nil =>
    intro l0 _
    exact ⟨fun x hx => hx, by simp, by simp⟩
  | cons h t ih =>
    intro l0 hb
    simp only [List.length_cons] at hb
    simp only [List.foldl_cons, List.length_cons]
    have hl0 : l0.length ≤ 99 := by omega
    have hstep_len : (SessionEnd.markStep l0 h).length ≤ l0.length + 1 :=
      length_markStep_le l0 h
    obtain ⟨ih1, ih2, ih3⟩ := ih (SessionEnd.markStep l0 h) (by omega)
    refine ⟨?_, ?_, ?_⟩
    · intro x hx
      exact ih1 x (mem_markStep_of_mem h hl0 hx)
    · intro h' hh'
      rcases List.mem_cons.mp hh' with rfl | hmem
      · exact ih1 h' (mem_markStep_self l0 h')
      · exact ih2 h' hmem
    · omega

lemma get_new_commits_eq_nil {log : List SessionEnd.Commit} {saved : List String}
    (h : ∀ c ∈ log, c.hash ∈ saved) :
    SessionEnd.get_new_commits log saved = [] := by
  unfold SessionEnd.get_new_commits
  have hf : log.filter (fun c => ¬ c.hash ∈ saved) = [] := by
    rw [List.filter_eq_nil_iff]
    intro c hc
    simp [h c hc]
  rw [hf]
  rfl

/-- C2 (amended): when at most 3 of the logged commits are unrecorded and the
project's ledger holds at most 97 identifiers (so capped eviction cannot drop
a logged hash), one commit-capture run records every logged commit identifier,
and a second run over the unchanged git log is a complete no-op — zero new
Session rows, zero new Memory rows, unchanged ledger.  (Without the two
bounds this fails: `get_new_commits` processes at most the 3 most recent
novel commits per invocation, see the counterexample.) -/
theorem c2_ledger_idempotence_amended (cf₁ cf₂ : String → List String) (p : String)
    (now₁ now₂ : Int) (log : List SessionEnd.Commit) (st : SessionEnd.SEState)
    (hcnt : (log.filter (fun c => ¬ c.hash ∈ st.ledger p)).length ≤ 3)
    (hlen : (st.ledger p).length ≤ 97) :
    (∀ c ∈ log, c.hash ∈ (SessionEnd.commit_capture cf₁ p now₁ log st).ledger p)
    ∧ SessionEnd.commit_capture cf₂ p now₂ log (SessionEnd.commit_capture cf₁ p now₁ log st)
        = SessionEnd.commit_capture cf₁ p now₁ log st := by
  have hnewdef : SessionEnd.get_new_commits log (st.ledger p)
      = log.filter (fun c => ¬ c.hash ∈ st.ledger p) := by
    unfold SessionEnd.get_new_commits
    exact List.take_of_length_le hcnt
  set ns := (SessionEnd.get_new_commits log (st.ledger p)).map (fun c => c.hash) with hns
  have hledger : (SessionEnd.commit_capture cf₁ p now₁ log st).ledger p
      = ns.foldl SessionEnd.markStep (st.ledger p) := by
    unfold SessionEnd.commit_capture
    rw [processList_ledger]
    rw [← List.foldl_map (fun c : SessionEnd.Commit => c.hash)
      (fun L h => SessionEnd.save_commit_hash L p h)]
    rw [fold_save_commit_hash_apply]
  have hnslen : ns.length ≤ 3 := by
    rw [hns, List.length_map, hnewdef]
    exact hcnt
  obtain ⟨inv1, inv2, _⟩ := fold_markStep_invariant ns (st.ledger p) (by omega)
  have hall : ∀ c ∈ log, c.hash ∈ (SessionEnd.commit_capture cf₁ p now₁ log st).ledger p := by
    intro c hc
    rw [hledger]
    by_cases hmem : c.hash ∈ st.ledger p
    · exact inv1 c.hash hmem
    · have hcin : c ∈ SessionEnd.get_new_commits log (st.ledger p) := by
        rw [hnewdef]
        refine List.mem_filter.mpr ⟨hc, ?_⟩
        simp [hmem]
      exact inv2 c.hash (List.mem_map.mpr ⟨c, hcin, rfl⟩)
  refine ⟨hall, ?_⟩
  have hnil : SessionEnd.get_new_commits log
      ((SessionEnd.commit_capture cf₁ p now₁ log st).ledger p) = [] :=
    get_new_commits_eq_nil hall
  conv_lhs => rw [SessionEnd.commit_capture, hnil]
  rfl

/-- Witness for C2 (amended): two novel commits on an empty ledger. -/
theorem c2_ledger_idempotence_amended_witness :
    ((([⟨"h1", "add parser feature one", "d"⟩, ⟨"h2", "add parser feature two", "d"⟩]
          : List SessionEnd.Commit).filter
        (fun c => ¬ c.hash ∈ (((fun _ => []) : SessionEnd.Ledger) "p"))).length ≤ 3
      ∧ ((((fun _ => []) : SessionEnd.Ledger) "p").length ≤ 97))
    ∧ SessionEnd.commit_capture (fun _ => []) "p" 200
        [⟨"h1", "add parser feature one", "d"⟩, ⟨"h2", "add parser feature two", "d"⟩]
        (SessionEnd.commit_capture (fun _ => []) "p" 100
          [⟨"h1", "add parser feature one", "d"⟩, ⟨"h2", "add parser feature two", "d"⟩]
          ⟨⟨[], [], [], [], 1⟩, fun _ => []⟩)
      = SessionEnd.commit_capture (fun _ => []) "p" 100
          [⟨"h1", "add parser feature one", "d"⟩, ⟨"h2", "add parser feature two", "d"⟩]
          ⟨⟨[], [], [], [], 1⟩, fun _ => []⟩ :=
  ⟨⟨by decide, by decide⟩,
   (c2_ledger_idempotence_amended (fun _ => []) (fun _ => []) "p" 100 200
      [⟨"h1", "add parser feature one", "d"⟩, ⟨"h2", "add parser feature two", "d"⟩]
      ⟨⟨[], [], [], [], 1⟩, fun _ => []⟩ (by decide) (by decide)).2⟩

/-- Counterexample for C2 as stated: with four novel non-trivial commits in the
log and an empty ledger, the first capture processes only the 3 most recent
novel commits, so the second capture over the unchanged log still inserts a
fourth Session row (3 rows after run one, 4 after run two). -/
theorem c2_ledger_counterexample :
    ((SessionEnd.commit_capture (fun _ => []) "p" 100
        [⟨"h1", "add parser feature one", "d"⟩, ⟨"h2", "add parser feature two", "d"⟩,
         ⟨"h3", "add parser feature three", "d"⟩, ⟨"h4", "add parser feature four", "d"⟩]
        ⟨⟨[], [], [], [], 1⟩, fun _ => []⟩).store.sessions.length = 3)
    ∧ ((SessionEnd.commit_capture (fun _ => []) "p" 200
        [⟨"h1", "add parser feature one", "d"⟩, ⟨"h2", "add parser feature two", "d"⟩,
         ⟨"h3", "add parser feature three", "d"⟩, ⟨"h4", "add parser feature four", "d"⟩]
        (SessionEnd.commit_capture (fun _ => []) "p" 100
          [⟨"h1", "add parser feature one", "d"⟩, ⟨"h2", "add parser feature two", "d"⟩,
           ⟨"h3", "add parser feature three", "d"⟩, ⟨"h4", "add parser feature four", "d"⟩]
          ⟨⟨[], [], [], [], 1⟩, fun _ => []⟩)).store.sessions.length = 4) :=
  ⟨by decide, by decide⟩

/-! ## C8: cosine similarity boundary behaviour -/

/-- C8: over the ideal-real reading of floats, `cosine_similarity` of a vector
of nonzero norm with itself is exactly 1, and it is exactly 0 whenever either
norm is zero, the lengths differ, or the vectors are empty. -/
theorem c8_cosine_boundary :
    (∀ v : List ℝ, Real.sqrt (SessionStart.sumSquares v) ≠ 0 →
        SessionStart.cosine_similarity Real.sqrt v v = 1)
    ∧ (∀ a b : List ℝ,
        (Real.sqrt (SessionStart.sumSquares a) = 0
          ∨ Real.sqrt (SessionStart.sumSquares b) = 0
          ∨ a.length ≠ b.length ∨ a.length = 0) →
        SessionStart.cosine_similarity Real.sqrt a b = 0) := by
  constructor
  · intro v hv
    have hS0 : 0 ≤ SessionStart.sumSquares v := by
      refine List.sum_nonneg ?_
      intro x hx
      rcases List.mem_map.mp hx with ⟨y, _, rfl⟩
      exact mul_self_nonneg y
    have hSne : SessionStart.sumSquares v ≠ 0 := by
      intro h
      exact hv (by rw [h, Real.sqrt_zero])
    have hlen : ¬(v.length ≠ v.length ∨ v.length = 0) := by
      rintro (h | h)
      · exact h rfl
      · apply hSne
        rw [List.length_eq_zero] at h
        subst h
        simp [SessionStart.sumSquares]
    unfold SessionStart.cosine_similarity
    rw [if_neg hlen]
    simp only []
    have hdot : (List.zipWith (fun x y => x * y) v v).sum = SessionStart.sumSquares v := by
      unfold SessionStart.sumSquares
      rw [List.zipWith_same]
    rw [if_neg (by rintro (h | h) <;> exact hv h)]
    rw [hdot, Real.mul_self_sqrt hS0]
    exact div_self hSne
  · intro a b h
    unfold SessionStart.cosine_similarity
    by_cases hl : (a.length ≠ b.length ∨ a.length = 0)
    · rw [if_pos hl]
    · rw [if_neg hl]
      simp only []
      have hnorm : Real.sqrt (SessionStart.sumSquares a) = 0
          ∨ Real.sqrt (SessionStart.sumSquares b) = 0 := by tauto
      rw [if_pos hnorm]

/-- Witness for C8 at the vectors `[1]` and `[0]`. -/
theorem c8_cosine_boundary_witness :
    (Real.sqrt (SessionStart.sumSquares [(1 : ℝ)]) ≠ 0
      ∧ SessionStart.cosine_similarity Real.sqrt [(1 : ℝ)] [(1 : ℝ)] = 1)
    ∧ (Real.sqrt (SessionStart.sumSquares ([0] : List ℝ)) = 0
      ∧ SessionStart.cosine_similarity Real.sqrt ([0] : List ℝ) ([0] : List ℝ) = 0) := by
  have h1 : Real.sqrt (SessionStart.sumSquares [(1 : ℝ)]) ≠ 0 := by
    simp [SessionStart.sumSquares]
  have h0 : Real.sqrt (SessionStart.sumSquares ([0] : List ℝ)) = 0 := by
    simp [SessionStart.sumSquares]
  exact ⟨⟨h1, c8_cosine_boundary.1 [1] h1⟩, ⟨h0, c8_cosine_boundary.2 [0] [0] (Or.inl h0)⟩⟩

/-! ## C5: retrieval determinism and keyword-set enumeration order -/

lemma any_perm {l₁ l₂ : List α} (h : l₁.Perm l₂) (f : α → Bool) :
    l₁.any f = l₂.any f := by
  by_cases hb : l₁.any f = true
  · rw [hb]
    rcases List.any_eq_true.mp hb with ⟨a, ha, hfa⟩
    exact (List.any_eq_true.mpr ⟨a, h.mem_iff.mp ha, hfa⟩).symm
  · have hb' : l₁.any f = false := by revert hb; cases l₁.any f <;> simp
    have hc : l₂.any f = false := by
      by_contra hc
      have h2 : l₂.any f = true := by revert hc; cases l₂.any f <;> simp
      rcases List.any_eq_true.mp h2 with ⟨a, ha, hfa⟩
      exact hb (List.any_eq_true.mpr ⟨a, h.mem_iff.mpr ha, hfa⟩)
    rw [hb', hc]

lemma ftsMatch_perm {k₁ k₂ : List String} (h : k₁.Perm k₂) (c : String) :
    SessionStart.ftsMatch k₁ c = SessionStart.ftsMatch k₂ c :=
  any_perm h _

lemma perm_ne_nil {k₁ k₂ : List α} (h : k₁.Perm k₂) (hne : k₁ ≠ []) : k₂ ≠ [] := by
  intro hk
  subst hk
  exact hne h.eq_nil

lemma search_semantic_perm (sqrtO : ℚ → ℚ) (mems : List MemoryRow)
    (embs : List EmbeddingRow) (project : String) (n : Nat) {k₁ k₂ : List String}
    (hperm : k₁.Perm k₂) (hlen : k₁.length ≤ 5) :
    SessionStart.search_semantic_memories sqrtO mems embs project k₁ n
      = SessionStart.search_semantic_memories sqrtO mems embs project k₂ n := by
  have hlen₂ : k₂.length ≤ 5 := hperm.length_eq ▸ hlen
  by_cases hk : k₁ = []
  · subst hk
    have : k₂ = [] := hperm.symm.eq_nil
    subst this
    rfl
  · have hk₂ : k₂ ≠ [] := perm_ne_nil hperm hk
    unfold SessionStart.search_semantic_memories
    rw [if_pos hk, if_pos hk₂]
    have hfn : (fun m : MemoryRow =>
        SessionStart.ftsMatch (k₁.take 5) m.content && m.project == project)
        = (fun m : MemoryRow =>
        SessionStart.ftsMatch (k₂.take 5) m.content && m.project == project) := by
      funext m
      rw [List.take_of_length_le hlen, List.take_of_length_le hlen₂, ftsMatch_perm hperm]
    rw [hfn]

lemma search_keywords_perm (mems : List MemoryRow) (project : String) (n : Nat)
    {k₁ k₂ : List String} (hperm : k₁.Perm k₂) (hlen : k₁.length ≤ 10) :
    SessionStart.search_memories_by_keywords mems project k₁ n
      = SessionStart.search_memories_by_keywords mems project k₂ n := by
  have hlen₂ : k₂.length ≤ 10 := hperm.length_eq ▸ hlen
  by_cases hk : k₁ = []
  · subst hk
    have : k₂ = [] := hperm.symm.eq_nil
    subst this
    rfl
  · have hk₂ : k₂ ≠ [] := perm_ne_nil hperm hk
    unfold SessionStart.search_memories_by_keywords
    rw [if_neg (fun h => hk h), if_neg (fun h => hk₂ h)]
    have hfn : (fun m : MemoryRow =>
        m.project == project && SessionStart.ftsMatch (k₁.take 10) m.content)
        = (fun m : MemoryRow =>
        m.project == project && SessionStart.ftsMatch (k₂.take 10) m.content) := by
      funext m
      rw [List.take_of_length_le hlen, List.take_of_length_le hlen₂, ftsMatch_perm hperm]
    rw [hfn]

/-- C5 (amended): for a fixed store, git log and time, the multi-phase
retrieval is a deterministic function of the enumeration order that
`list(keywords)` imposes on the extracted keyword set; moreover, whenever that
set has at most 5 elements, the order is irrelevant — any two enumerations of
the set yield the same ids in the same order.  (With more than 10 keywords,
different enumerations truncate to different FTS keyword subsets and can
return different ids in different orders; see the counterexample.) -/
theorem c5_determinism_amended (sqrtO : ℚ → ℚ) (mems : List MemoryRow)
    (embs : List EmbeddingRow) (project : String) (now : Int)
    (msgs files : List String) (e₁ e₂ : List String)
    (h₁ : e₁.Perm (SessionStart.extract_git_keywords_set msgs files))
    (h₂ : e₂.Perm (SessionStart.extract_git_keywords_set msgs files))
    (hsmall : (SessionStart.extract_git_keywords_set msgs files).length ≤ 5) :
    SessionStart.retrieveIds sqrtO mems embs project (e₁.take 20) now
      = SessionStart.retrieveIds sqrtO mems embs project (e₂.take 20) now := by
  have hperm : e₁.Perm e₂ := h₁.trans h₂.symm
  have hl₁ : e₁.length ≤ 5 := h₁.length_eq ▸ hsmall
  have hl₂ : e₂.length ≤ 5 := h₂.length_eq ▸ hsmall
  rw [List.take_of_length_le (le_trans hl₁ (by omega)),
      List.take_of_length_le (le_trans hl₂ (by omega))]
  unfold SessionStart.retrieveIds SessionStart.retrieve
  rw [search_semantic_perm sqrtO mems embs project _ hperm hl₁,
      search_keywords_perm mems project _ hperm (le_trans hl₁ (by omega))]

/-- Witness for C5 (amended): the two-keyword set `{alpha, beta}` in both
enumeration orders. -/
theorem c5_determinism_amended_witness :
    ((["alpha", "beta"] : List String).Perm
        (SessionStart.extract_git_keywords_set ["alpha beta"] [])
      ∧ (["beta", "alpha"] : List String).Perm
        (SessionStart.extract_git_keywords_set ["alpha beta"] [])
      ∧ (SessionStart.extract_git_keywords_set ["alpha beta"] []).length ≤ 5)
    ∧ SessionStart.retrieveIds (fun q => q)
        [⟨1, "alpha topic", "observation", none, "p", 5, 1000, none⟩,
         ⟨2, "beta topic", "observation", none, "p", 5, 2000, none⟩] [] "p"
        ((["alpha", "beta"] : List String).take 20) 3000
      = SessionStart.retrieveIds (fun q => q)
        [⟨1, "alpha topic", "observation", none, "p", 5, 1000, none⟩,
         ⟨2, "beta topic", "observation", none, "p", 5, 2000, none⟩] [] "p"
        ((["beta", "alpha"] : List String).take 20) 3000 :=
  ⟨⟨by decide, by decide, by decide⟩,
   c5_determinism_amended (fun q => q)
     [⟨1, "alpha topic", "observation", none, "p", 5, 1000, none⟩,
      ⟨2, "beta topic", "observation", none, "p", 5, 2000, none⟩] [] "p" 3000
     ["alpha beta"] [] ["alpha", "beta"] ["beta", "alpha"]
     (by decide) (by decide) (by decide)⟩

/-- Counterexample for C5 as stated: an 11-word commit message produces an
11-element keyword set; two legitimate enumerations of that set (Python `set`
iteration order is hash-seed dependent across processes) lead the keyword
phases to truncate to different 10-element subsets, and the two runs of the
whole pipeline return the ids in different orders (`[1, 2]` versus `[2, 1]`). -/
theorem c5_determinism_counterexample :
    ((["alpha", "ccc", "ddd", "eee", "fff", "ggg", "hhh", "iii", "jjj", "kkk", "beta"]
        : List String).Perm
        (SessionStart.extract_git_keywords_set
          ["alpha beta ccc ddd eee fff ggg hhh iii jjj kkk"] [])
      ∧ ((["beta", "ccc", "ddd", "eee", "fff", "ggg", "hhh", "iii", "jjj", "kkk", "alpha"]
        : List String).Perm
        (SessionStart.extract_git_keywords_set
          ["alpha beta ccc ddd eee fff ggg hhh iii jjj kkk"] [])))
    ∧ SessionStart.retrieveIds (fun q => q)
        [⟨1, "alpha topic", "observation", none, "p", 5, 1000, none⟩,
         ⟨2, "beta topic", "observation", none, "p", 5, 2000, none⟩] [] "p"
        ((["alpha", "ccc", "ddd", "eee", "fff", "ggg", "hhh", "iii", "jjj", "kkk", "beta"]
          : List String).take 20) 3000 = [1, 2]
    ∧ SessionStart.retrieveIds (fun q => q)
        [⟨1, "alpha topic", "observation", none, "p", 5, 1000, none⟩,
         ⟨2, "beta topic", "observation", none, "p", 5, 2000, none⟩] [] "p"
        ((["beta", "ccc", "ddd", "eee", "fff", "ggg", "hhh", "iii", "jjj", "kkk", "alpha"]
          : List String).take 20) 3000 = [2, 1]
    ∧ ([1, 2] : List Nat) ≠ [2, 1] :=
  ⟨⟨by decide, by decide⟩, by decide, by decide, by decide⟩
